import Mathlib

/-!
# Verification of the water transport-module core

Shallow embedding of the water repository's version registry, v0 capability
shim (connect host function), managed dialer, and the spec-level runtime
connection semantics, together with proofs of the spec claims about them.

Go machine integers (int32 version numbers, i32 guest values) are modelled as
`Int`; the registry only compares keys for equality and the shim only passes
codes through, so no overflow arithmetic is involved. Go `error` values are
modelled as `Option String` / `Except String`; a Go `panic` in the registry
registration functions is modelled as the `Except.error` branch of the
registration function's result.
-/

namespace Water

/-- The process-wide version registry state: the two maps from
`src/unnamed/part_000` (`mapOBRCV` for outbound constructors, `mapIBRCV` for
inbound constructors). Go maps are modelled as functions to `Option`.
`Core`, `Conn`, `Raw` stand for `*runtimeCore`, `RuntimeConn`, `net.Conn`. -/
structure RegistryState (Core Conn Raw : Type) where
  mapOBRCV : Int → Option (Core → Except String Conn)
  mapIBRCV : Int → Option (Core → Raw → Except String Conn)

variable {Core Conn Raw : Type}

/-- Embedding of `OutboundRuntimeConnWithVersion` (part_000 lines 20-26):
looks up `version` in `mapOBRCV`; if absent returns the unknown-version
error, otherwise calls the registered constructor on `core`. The registry
state is threaded through unchanged, reflecting that the Go function only
reads the map. -/
def OutboundRuntimeConnWithVersion (st : RegistryState Core Conn Raw)
    (core : Core) (version : Int) :
    Except String Conn × RegistryState Core Conn Raw :=
  match st.mapOBRCV version with
  | none => (Except.error ("water: unknown version: " ++ toString version), st)
  | some f => (f core, st)

/-- Embedding of `InboundRuntimeConnWithVersion` (part_000 lines 37-43):
same as the outbound lookup but over `mapIBRCV`, passing the pre-accepted
raw connection `ibc` to the constructor. -/
def InboundRuntimeConnWithVersion (st : RegistryState Core Conn Raw)
    (core : Core) (version : Int) (ibc : Raw) :
    Except String Conn × RegistryState Core Conn Raw :=
  match st.mapIBRCV version with
  | none => (Except.error ("water: unknown version: " ++ toString version), st)
  | some f => (f core ibc, st)

/-- Embedding of `RegisterOutboundRuntimeConnWithVersion` (part_000 lines
28-33). The Go `panic` on a duplicate version is modelled as `Except.error`
carrying the panic message; on success the updated registry state is
returned. -/
def RegisterOutboundRuntimeConnWithVersion (st : RegistryState Core Conn Raw)
    (version : Int) (f : Core → Except String Conn) :
    Except String (RegistryState Core Conn Raw) :=
  match st.mapOBRCV version with
  | some _ => Except.error ("water: version " ++ toString version ++ " already registered")
  | none => Except.ok
      { st with mapOBRCV := fun v => if v = version then some f else st.mapOBRCV v }

/-- Embedding of `RegisterInboundRuntimeConnWithVersion` (part_000 lines
45-50), symmetric to the outbound registration over `mapIBRCV`. -/
def RegisterInboundRuntimeConnWithVersion (st : RegistryState Core Conn Raw)
    (version : Int) (f : Core → Raw → Except String Conn) :
    Except String (RegistryState Core Conn Raw) :=
  match st.mapIBRCV version with
  | some _ => Except.error ("water: version " ++ toString version ++ " already registered")
  | none => Except.ok
      { st with mapIBRCV := fun v => if v = version then some f else st.mapIBRCV v }

/-- The registry with no registered version, used to instantiate theorems at
concrete inputs. -/
def emptyRegistry : RegistryState Unit Nat Unit :=
  { mapOBRCV := fun _ => none, mapIBRCV := fun _ => none }

end Water

/-- C1: for every version with no registered outbound (resp. inbound)
constructor, `OutboundRuntimeConnWithVersion` (resp.
`InboundRuntimeConnWithVersion`) returns no connection and fails with the
unknown-version error, for every core (and raw connection), leaving the
registry unchanged. -/
theorem c1_unknown_version_fails {Core Conn Raw : Type}
    (st : Water.RegistryState Core Conn Raw) (core : Core) (ibc : Raw)
    (version : Int)
    (hOB : st.mapOBRCV version = none) (hIB : st.mapIBRCV version = none) :
    Water.OutboundRuntimeConnWithVersion st core version =
      (Except.error ("water: unknown version: " ++ toString version), st) ∧
    Water.InboundRuntimeConnWithVersion st core version ibc =
      (Except.error ("water: unknown version: " ++ toString version), st) := by
  constructor
  · unfold Water.OutboundRuntimeConnWithVersion
    rw [hOB]
  · unfold Water.InboundRuntimeConnWithVersion
    rw [hIB]

/-- Witness for C1: the empty registry has no constructor for version 0, and
both lookups fail with the unknown-version error there. -/
theorem c1_unknown_version_fails_witness :
    Water.OutboundRuntimeConnWithVersion Water.emptyRegistry () 0 =
      (Except.error ("water: unknown version: " ++ toString (0 : Int)),
        Water.emptyRegistry) ∧
    Water.InboundRuntimeConnWithVersion Water.emptyRegistry () 0 () =
      (Except.error ("water: unknown version: " ++ toString (0 : Int)),
        Water.emptyRegistry) :=
  c1_unknown_version_fails Water.emptyRegistry () () 0 rfl rfl

/-- C2: for every version already present in the outbound (resp. inbound)
registry, registering it again with any constructor aborts with the fatal
panic (modelled as the `Except.error` branch, which carries no replacement
state), rather than replacing or keeping the existing entry. -/
theorem c2_duplicate_registration_panics {Core Conn Raw : Type}
    (st : Water.RegistryState Core Conn Raw) (version : Int)
    (f : Core → Except String Conn) (g : Core → Raw → Except String Conn)
    (hOB : (st.mapOBRCV version).isSome) (hIB : (st.mapIBRCV version).isSome) :
    Water.RegisterOutboundRuntimeConnWithVersion st version f =
      Except.error ("water: version " ++ toString version ++ " already registered") ∧
    Water.RegisterInboundRuntimeConnWithVersion st version g =
      Except.error ("water: version " ++ toString version ++ " already registered") := by
  obtain ⟨f0, hf0⟩ := Option.isSome_iff_exists.mp hOB
  obtain ⟨g0, hg0⟩ := Option.isSome_iff_exists.mp hIB
  constructor
  · unfold Water.RegisterOutboundRuntimeConnWithVersion
    rw [hf0]
  · unfold Water.RegisterInboundRuntimeConnWithVersion
    rw [hg0]

/-- Witness for C2: a registry with version 7 registered on both sides
rejects a second registration of version 7 on either side. -/
theorem c2_duplicate_registration_panics_witness :
    Water.RegisterOutboundRuntimeConnWithVersion
      { mapOBRCV := fun _ => some fun _ => Except.ok 1,
        mapIBRCV := fun _ => some fun _ _ => Except.ok 1 :
        Water.RegistryState Unit Nat Unit }
      7 (fun _ => Except.ok 2) =
      Except.error ("water: version " ++ toString (7 : Int) ++ " already registered") ∧
    Water.RegisterInboundRuntimeConnWithVersion
      { mapOBRCV := fun _ => some fun _ => Except.ok 1,
        mapIBRCV := fun _ => some fun _ _ => Except.ok 1 :
        Water.RegistryState Unit Nat Unit }
      7 (fun _ _ => Except.ok 2) =
      Except.error ("water: version " ++ toString (7 : Int) ++ " already registered") :=
  c2_duplicate_registration_panics _ 7 _ _ rfl rfl

/-- C10: after a first registration of version `v` with outbound constructor
`f` (both registries previously unaware of `v`), the outbound lookup returns
exactly `f core` and leaves the registry state unchanged; the inbound map is
untouched by the outbound registration, so `v` is still an unknown inbound
version. -/
theorem c10_register_then_lookup {Core Conn Raw : Type}
    (st : Water.RegistryState Core Conn Raw) (core : Core) (ibc : Raw)
    (version : Int) (f : Core → Except String Conn)
    (hOB : st.mapOBRCV version = none) (hIB : st.mapIBRCV version = none) :
    ∃ st1, Water.RegisterOutboundRuntimeConnWithVersion st version f = Except.ok st1 ∧
      Water.OutboundRuntimeConnWithVersion st1 core version = (f core, st1) ∧
      st1.mapIBRCV = st.mapIBRCV ∧
      Water.InboundRuntimeConnWithVersion st1 core version ibc =
        (Except.error ("water: unknown version: " ++ toString version), st1) := by
  refine ⟨{ st with mapOBRCV := fun v => if v = version then some f else st.mapOBRCV v },
    ?_, ?_, rfl, ?_⟩
  · unfold Water.RegisterOutboundRuntimeConnWithVersion
    rw [hOB]
  · unfold Water.OutboundRuntimeConnWithVersion
    simp
  · unfold Water.InboundRuntimeConnWithVersion
    simp only [hIB]

/-- Witness for C10: registering version 3 in the empty registry and looking
it up outbound yields the constructor's result; version 3 stays unknown
inbound. -/
theorem c10_register_then_lookup_witness :
    ∃ st1, Water.RegisterOutboundRuntimeConnWithVersion Water.emptyRegistry 3
        (fun _ => Except.ok 42) = Except.ok st1 ∧
      Water.OutboundRuntimeConnWithVersion st1 () 3 = (Except.ok 42, st1) ∧
      st1.mapIBRCV = Water.emptyRegistry.mapIBRCV ∧
      Water.InboundRuntimeConnWithVersion st1 () 3 () =
        (Except.error ("water: unknown version: " ++ toString (3 : Int)), st1) :=
  c10_register_then_lookup Water.emptyRegistry () () 3 (fun _ => Except.ok 42) rfl rfl

namespace WaterV0

/-- Embedding of `ManagedDialer` from `src/internal/v0/managed_dialer.go`:
an immutable record of the network, the address and the dialer function.
`RawConn` stands for `net.Conn`; the Go `(net.Conn, error)` result is
modelled as `Except String RawConn`. -/
structure ManagedDialer (RawConn : Type) where
  network : String
  address : String
  dialerFunc : String → String → Except String RawConn

/-- Embedding of `NewManagedDialer` (managed_dialer.go lines 17-23). -/
def NewManagedDialer {RawConn : Type} (network address : String)
    (dialerFunc : String → String → Except String RawConn) :
    ManagedDialer RawConn :=
  { network := network, address := address, dialerFunc := dialerFunc }

/-- Embedding of `(*ManagedDialer).Dial` (managed_dialer.go lines 26-28):
calls the stored dialer function on the stored network and address. `Dial`
takes no other input. -/
def ManagedDialer.Dial {RawConn : Type} (md : ManagedDialer RawConn) :
    Except String RawConn :=
  md.dialerFunc md.network md.address

end WaterV0

/-- C4: for every `ManagedDialer` built by `NewManagedDialer`, `Dial` invokes
the construction-time dialer function with exactly the construction-time
network and address and returns its result; `Dial` takes no argument, so
nothing supplied after construction can change the destination dialed. -/
theorem c4_managed_dialer_fixed_destination {RawConn : Type}
    (network address : String)
    (dialerFunc : String → String → Except String RawConn) :
    (WaterV0.NewManagedDialer network address dialerFunc).Dial =
      dialerFunc network address := rfl

namespace WaterV0

/-- A wasmtime value as used by the v0 shim; only i32 values occur. The i32
payload is modelled as `Int` (the shim only passes the code through, no
arithmetic is performed on it). -/
inductive WasmVal : Type
  | i32 (v : Int) : WasmVal
deriving DecidableEq

/-- Modelled from the spec: the numeric value of `wasm.INVALID_ARGUMENT` is
not in src (only its use site is); the spec requires a well-defined negative
error code, so it is modelled as a fixed negative constant. -/
def INVALID_ARGUMENT : Int := -2

/-- Modelled from the spec: the numeric value of `wasm.INVALID_FUNCTION` is
not in src (only its use site is); §4.4 requires an unimplemented function
in the shim set to return a well-defined "not implemented" negative code,
so it is modelled as a fixed negative constant distinct from
`INVALID_ARGUMENT`. -/
def INVALID_FUNCTION : Int := -4

/-- The type of `WASIConnectFunc` from `src/unnamed/part_001` line 11: given
a caller, produce `(fd, err)`; `err = none` models a nil Go error. `C`
stands for `*wasmtime.Caller`. -/
def WASIConnectFunc (C : Type) : Type := C → Int × Option String

/-- The result of a wasmtime store-independent host function: the returned
values and an optional trap (a non-nil `*wasmtime.Trap` is `some` of its
message). -/
def HostFuncResult : Type := List WasmVal × Option String

/-- The argument-count error branch of `WrapConnectFunc` (part_001 lines
24-26): returns `INVALID_ARGUMENT` and a trap describing the arity
mismatch. -/
def connectArgCountError (vals : List WasmVal) : HostFuncResult :=
  ([WasmVal.i32 INVALID_ARGUMENT],
    some ("v0.WASIConnectFunc expects 0 argument, got " ++ toString vals.length))

/-- The zero-argument branch of `WrapConnectFunc` (part_001 lines 28-33):
calls `f`; on a Go error the fd (expected to be a negative error code) is
returned together with a trap wrapping the error, otherwise the fd is
returned with no trap. -/
def connectCall {C : Type} (f : WASIConnectFunc C) (caller : C) : HostFuncResult :=
  match f caller with
  | (fd, some e) => ([WasmVal.i32 fd], some ("v0.WASIConnectFunc: " ++ e))
  | (fd, none) => ([WasmVal.i32 fd], none)

/-- Embedding of `WrapConnectFunc` (part_001 lines 22-35): the wrapped host
function checks the guest-supplied argument list, then dispatches to the
branches above. -/
def WrapConnectFunc {C : Type} (f : WASIConnectFunc C) (caller : C)
    (vals : List WasmVal) : HostFuncResult :=
  if vals.length ≠ 0 then connectArgCountError vals
  else connectCall f caller

/-- Embedding of `unimplementedWASIConnectFunc` (part_001 lines 44-46):
ignores the caller and returns `INVALID_FUNCTION` with a non-nil error. -/
def unimplementedWASIConnectFunc {C : Type} : WASIConnectFunc C :=
  fun _ => (INVALID_FUNCTION, some "NOP WASIConnectFunc is called")

/-- Embedding of `WrappedUnimplementedWASIConnectFunc` (part_001 lines
39-41). -/
def WrappedUnimplementedWASIConnectFunc {C : Type} (caller : C)
    (vals : List WasmVal) : HostFuncResult :=
  WrapConnectFunc unimplementedWASIConnectFunc caller vals

/-- A concrete connect function whose error branch is exercised below:
returns fd `-1` and a Go error "boom". -/
def connectFuncBoom : WASIConnectFunc Unit := fun _ => (-1, some "boom")

end WaterV0

/-- Counterexample to C3: for the connect function `connectFuncBoom`, which
returns an error, the wrapped function invoked with zero arguments returns
the error code together with a NON-nil trap — it does raise a trap, contrary
to the claim that no trap is raised. -/
theorem c3_error_raises_trap_counterexample :
    (WaterV0.WrapConnectFunc WaterV0.connectFuncBoom () []).2 ≠ none ∧
    WaterV0.WrapConnectFunc WaterV0.connectFuncBoom () [] =
      ([WaterV0.WasmVal.i32 (-1)], some "v0.WASIConnectFunc: boom") := by
  constructor
  · decide
  · rfl

/-- C3 (amended): for every connect function `f` returning an error, the
wrapped connect import invoked with zero arguments returns f's error code
(expected negative) in the result values, together with a trap wrapping f's
error message. -/
theorem c3_error_code_with_trap {C : Type} (f : WaterV0.WASIConnectFunc C)
    (caller : C) (fd : Int) (e : String) (hf : f caller = (fd, some e)) :
    WaterV0.WrapConnectFunc f caller [] =
      ([WaterV0.WasmVal.i32 fd], some ("v0.WASIConnectFunc: " ++ e)) := by
  unfold WaterV0.WrapConnectFunc WaterV0.connectCall
  simp [hf]

/-- Witness for C3 (amended): at `connectFuncBoom`, the wrapped function
returns fd `-1` and the trap "v0.WASIConnectFunc: boom". -/
theorem c3_error_code_with_trap_witness :
    WaterV0.WrapConnectFunc WaterV0.connectFuncBoom () [] =
      ([WaterV0.WasmVal.i32 (-1)], some ("v0.WASIConnectFunc: " ++ "boom")) :=
  c3_error_code_with_trap WaterV0.connectFuncBoom () (-1) "boom" rfl

/-- C5: every guest invocation of the wrapped unimplemented (stubbed) connect
host function carries a trap (never reports success), and at the declared
arity (zero arguments) it returns the negative `INVALID_FUNCTION` error code
together with the error wrapped in the trap. -/
theorem c5_unimplemented_connect_fails {C : Type} (caller : C)
    (vals : List WaterV0.WasmVal) :
    (WaterV0.WrappedUnimplementedWASIConnectFunc caller vals).2 ≠ none ∧
    WaterV0.WrappedUnimplementedWASIConnectFunc caller [] =
      ([WaterV0.WasmVal.i32 WaterV0.INVALID_FUNCTION],
        some ("v0.WASIConnectFunc: " ++ "NOP WASIConnectFunc is called")) ∧
    WaterV0.INVALID_FUNCTION < 0 := by
  refine ⟨?_, rfl, by decide⟩
  unfold WaterV0.WrappedUnimplementedWASIConnectFunc WaterV0.WrapConnectFunc
  cases vals with
  | nil => simp [WaterV0.connectCall, WaterV0.unimplementedWASIConnectFunc]
  | cons v rest => simp [WaterV0.connectArgCountError]

/-- C9: the wrapped connect import invoked with a non-empty argument list
returns the `INVALID_ARGUMENT` negative code together with a trap, and its
result is independent of `f` (so `f` is never consulted); with exactly zero
arguments the argument-count error branch is not taken — the result is that
of calling `f`. -/
theorem c9_arity_check_guards_f {C : Type}
    (f g : WaterV0.WASIConnectFunc C) (caller : C)
    (vals : List WaterV0.WasmVal) (hvals : vals ≠ []) :
    WaterV0.WrapConnectFunc f caller vals =
      ([WaterV0.WasmVal.i32 WaterV0.INVALID_ARGUMENT],
        some ("v0.WASIConnectFunc expects 0 argument, got " ++ toString vals.length)) ∧
    WaterV0.WrapConnectFunc f caller vals = WaterV0.WrapConnectFunc g caller vals ∧
    WaterV0.INVALID_ARGUMENT < 0 ∧
    WaterV0.WrapConnectFunc f caller [] = WaterV0.connectCall f caller := by
  have hlen : vals.length ≠ 0 := fun h => hvals (List.length_eq_zero.mp h)
  refine ⟨?_, ?_, by decide, ?_⟩
  · simp [WaterV0.WrapConnectFunc, hlen, WaterV0.connectArgCountError]
  · simp [WaterV0.WrapConnectFunc, hlen]
  · simp [WaterV0.WrapConnectFunc]

/-- Witness for C9: with one argument, the wrapped function returns
`INVALID_ARGUMENT` plus a trap regardless of the connect function, and with
zero arguments it is the connect function's branch. -/
theorem c9_arity_check_guards_f_witness :
    WaterV0.WrapConnectFunc WaterV0.connectFuncBoom () [WaterV0.WasmVal.i32 9] =
      ([WaterV0.WasmVal.i32 WaterV0.INVALID_ARGUMENT],
        some ("v0.WASIConnectFunc expects 0 argument, got " ++ toString
          [WaterV0.WasmVal.i32 9].length)) ∧
    WaterV0.WrapConnectFunc WaterV0.connectFuncBoom () [WaterV0.WasmVal.i32 9] =
      WaterV0.WrapConnectFunc (fun _ => (0, none)) () [WaterV0.WasmVal.i32 9] ∧
    WaterV0.INVALID_ARGUMENT < 0 ∧
    WaterV0.WrapConnectFunc WaterV0.connectFuncBoom () [] =
      WaterV0.connectCall WaterV0.connectFuncBoom () :=
  c9_arity_check_guards_f WaterV0.connectFuncBoom (fun _ => (0, none)) ()
    [WaterV0.WasmVal.i32 9] (by simp)

namespace WaterSpecModel

/-- Modelled from the spec: the Runtime Connection lifecycle states of §4.5
(`Created → Active → Closed`, plus an absorbing `Faulted` reachable from
`Active`), for the `transport/v0` connection whose implementation is not in
src (only its test `dialer_test.go` is). -/
inductive ConnState : Type
  | created : ConnState
  | active : ConnState
  | closed : ConnState
  | faulted : ConnState
deriving DecidableEq

/-- Modelled from the spec: the error taxonomy of §7 relevant to connection
operations. `wouldBlock` is the model's representation of a read that blocks
awaiting peer data (no deadline armed yet), which a shallow embedding cannot
suspend on. -/
inductive ConnError : Type
  | useOfClosedConnection : ConnError
  | timeout : ConnError
  | guestFault (msg : String) : ConnError
  | wouldBlock : ConnError
deriving DecidableEq

/-- Modelled from the spec: the Runtime Connection of §4.5. `inbox` is the
queue of pending data frames already delivered by the peer, in arrival
order; `readDeadline` is the absolute deadline (in abstract time units) set
by `setReadDeadline`, with `none` meaning no deadline. -/
structure RuntimeConnModel : Type where
  state : ConnState
  inbox : List (List Nat)
  readDeadline : Option Nat
deriving DecidableEq

/-- Modelled from the spec (§4.5): `setReadDeadline` stores the absolute
deadline after which a blocked read must return `Timeout`. -/
def RuntimeConnModel.setReadDeadline (c : RuntimeConnModel) (t : Option Nat) :
    RuntimeConnModel :=
  { c with readDeadline := t }

/-- Modelled from the spec (§4.5): `read` is valid only in `Active` and
fails with `UseOfClosedConnection` otherwise; with pending peer data it
returns the first frame; with no pending data it fails with `Timeout` as
soon as the current time `now` has reached the armed deadline (the model
invokes `read` at explicit time `now`, so "within a bounded, small multiple
of the deadline" is rendered as: any invocation at or after the deadline
returns `Timeout` immediately), or `wouldBlock` when no deadline is armed.
`Timeout` is recoverable: the connection is returned unchanged and stays
`Active`. -/
def RuntimeConnModel.read (c : RuntimeConnModel) (now : Nat) :
    Except ConnError (List Nat) × RuntimeConnModel :=
  if c.state ≠ ConnState.active then (Except.error ConnError.useOfClosedConnection, c)
  else
    match c.inbox with
    | msg :: rest => (Except.ok msg, { c with inbox := rest })
    | [] =>
      match c.readDeadline with
      | some d =>
        if d ≤ now then (Except.error ConnError.timeout, c)
        else (Except.error ConnError.wouldBlock, c)
      | none => (Except.error ConnError.wouldBlock, c)

/-- Modelled from the spec (§4.5): `write` is valid only in `Active` and
fails with `UseOfClosedConnection` otherwise; on success the whole buffer is
handed to the guest and its length returned. -/
def RuntimeConnModel.write (c : RuntimeConnModel) (msg : List Nat) :
    Except ConnError Nat × RuntimeConnModel :=
  if c.state ≠ ConnState.active then (Except.error ConnError.useOfClosedConnection, c)
  else (Except.ok msg.length, c)

/-- Modelled from the spec (§4.5): `close` tears down the core and moves the
connection to `Closed`; it is idempotent — a second close is a no-op
success — and on a `Faulted` connection (which behaves like `Closed`) it is
likewise a no-op success. -/
def RuntimeConnModel.close (c : RuntimeConnModel) :
    Except ConnError Unit × RuntimeConnModel :=
  match c.state with
  | ConnState.closed => (Except.ok (), c)
  | ConnState.faulted => (Except.ok (), c)
  | _ => (Except.ok (), { c with state := ConnState.closed })

/-- A concrete active connection with no pending peer data and no deadline,
used to instantiate theorems. -/
def activeConn : RuntimeConnModel :=
  { state := ConnState.active, inbox := [], readDeadline := none }

end WaterSpecModel

/-- C6: `close` succeeds on every connection; afterwards every read and
every write fails with `UseOfClosedConnection`, and a second `close` is a
no-op success that leaves the connection unchanged. -/
theorem c6_close_then_ops_fail (c : WaterSpecModel.RuntimeConnModel)
    (now : Nat) (msg : List Nat) :
    (c.close).1 = Except.ok () ∧
    (((c.close).2).read now).1 = Except.error WaterSpecModel.ConnError.useOfClosedConnection ∧
    (((c.close).2).write msg).1 = Except.error WaterSpecModel.ConnError.useOfClosedConnection ∧
    ((c.close).2).close = (Except.ok (), (c.close).2) := by
  cases hs : c.state <;>
    simp [WaterSpecModel.RuntimeConnModel.close, WaterSpecModel.RuntimeConnModel.read,
      WaterSpecModel.RuntimeConnModel.write, hs]

/-- C7: on an `Active` connection with no pending peer data, after a read
deadline in the near future is set, a read invoked at any time at or after
that deadline fails with `Timeout`, the connection is returned unchanged
(hence remains `Active`), and it stays usable: a subsequent write still
succeeds. -/
theorem c7_deadline_read_times_out (c : WaterSpecModel.RuntimeConnModel)
    (d now : Nat) (msg : List Nat)
    (hActive : c.state = WaterSpecModel.ConnState.active)
    (hEmpty : c.inbox = []) (hNow : d ≤ now) :
    ((c.setReadDeadline (some d)).read now).1 =
      Except.error WaterSpecModel.ConnError.timeout ∧
    ((c.setReadDeadline (some d)).read now).2 = c.setReadDeadline (some d) ∧
    (((c.setReadDeadline (some d)).read now).2).state =
      WaterSpecModel.ConnState.active ∧
    ((((c.setReadDeadline (some d)).read now).2).write msg).1 =
      Except.ok msg.length := by
  simp [WaterSpecModel.RuntimeConnModel.setReadDeadline,
    WaterSpecModel.RuntimeConnModel.read, WaterSpecModel.RuntimeConnModel.write,
    hActive, hEmpty, hNow]

/-- Witness for C7: on the concrete active connection, a deadline of 100
time units and a read at time 100 yields `Timeout` with the connection still
`Active` and writable. -/
theorem c7_deadline_read_times_out_witness :
    ((WaterSpecModel.activeConn.setReadDeadline (some 100)).read 100).1 =
      Except.error WaterSpecModel.ConnError.timeout ∧
    ((WaterSpecModel.activeConn.setReadDeadline (some 100)).read 100).2 =
      WaterSpecModel.activeConn.setReadDeadline (some 100) ∧
    (((WaterSpecModel.activeConn.setReadDeadline (some 100)).read 100).2).state =
      WaterSpecModel.ConnState.active ∧
    ((((WaterSpecModel.activeConn.setReadDeadline (some 100)).read 100).2).write [1, 2]).1 =
      Except.ok [1, 2].length :=
  c7_deadline_read_times_out WaterSpecModel.activeConn 100 100 [1, 2] rfl rfl
    (by decide)

namespace WaterSpecModel

/-- Modelled from the spec (§8 round-trip property and the `ExampleListener`
scenario): the pair of in-flight FIFO frame queues between a water endpoint
running a deterministic transform module and its plain peer. The `reverse`
transport module itself (`testdata/v0/reverse.wasm`) and the v0 connection
code are not in src. -/
structure WirePair : Type where
  toPeer : List (List Nat)
  toWater : List (List Nat)
deriving DecidableEq

/-- The wire with nothing in flight. -/
def emptyWire : WirePair := { toPeer := [], toWater := [] }

/-- Modelled from the spec: a write on the water endpoint passes the message
through the module's transform `t` and appends the frame to the wire towards
the peer. -/
def waterWrite (t : List Nat → List Nat) (w : WirePair) (msg : List Nat) :
    WirePair :=
  { w with toPeer := w.toPeer ++ [t msg] }

/-- Modelled from the spec: the plain peer reads the oldest in-flight frame
as-is. -/
def peerRead (w : WirePair) : Option (List Nat) × WirePair :=
  match w.toPeer with
  | m :: rest => (some m, { w with toPeer := rest })
  | [] => (none, w)

/-- Modelled from the spec: the plain peer writes a raw frame towards the
water endpoint. -/
def peerWrite (w : WirePair) (msg : List Nat) : WirePair :=
  { w with toWater := w.toWater ++ [msg] }

/-- Modelled from the spec: a read on the water endpoint takes the oldest
in-flight frame and passes it through the module's transform `t`. -/
def waterRead (t : List Nat → List Nat) (w : WirePair) :
    Option (List Nat) × WirePair :=
  match w.toWater with
  | m :: rest => (some (t m), { w with toWater := rest })
  | [] => (none, w)

/-- Modelled from the spec: run a sequence of message exchanges. In each
round the water endpoint writes the round's first message and the peer reads
it, then the peer writes the round's second message and the water endpoint
reads it. Returns the ordered sequences observed by the peer and by the
water endpoint, plus the final wire state. -/
def runExchanges (t : List Nat → List Nat) (w : WirePair) :
    List (List Nat × List Nat) → List (List Nat) × List (List Nat) × WirePair
  | [] => ([], [], w)
  | r :: rest =>
    let w1 := waterWrite t w r.1
    let pb := peerRead w1
    let w2 := peerWrite pb.2 r.2
    let pa := waterRead t w2
    let tail := runExchanges t pa.2 rest
    (pb.1.toList ++ tail.1, pa.1.toList ++ tail.2.1, tail.2.2)

end WaterSpecModel

/-- Helper for C8: starting from an empty wire, running any sequence of
exchanges yields exactly the transformed messages, in order, in both
directions, and leaves the wire empty. -/
theorem runExchanges_from_empty (t : List Nat → List Nat) :
    ∀ rounds : List (List Nat × List Nat),
    WaterSpecModel.runExchanges t WaterSpecModel.emptyWire rounds =
      (rounds.map fun r => t r.1, rounds.map fun r => t r.2,
        WaterSpecModel.emptyWire)
  | [] => rfl
  | r :: rest => by
    have ih := runExchanges_from_empty t rest
    simp only [WaterSpecModel.emptyWire] at ih ⊢
    simp [WaterSpecModel.runExchanges, WaterSpecModel.waterWrite,
      WaterSpecModel.peerRead, WaterSpecModel.peerWrite,
      WaterSpecModel.waterRead, ih]

/-- C8: with a byte-reversing transport module, over any sequence of at
least 10 consecutive exchanges between the connected pair, every message
written on one side is observed on the peer as its byte reversal, in both
directions, in order and without corruption or loss. -/
theorem c8_reverse_module_round_trip (rounds : List (List Nat × List Nat))
    (hTen : 10 ≤ rounds.length) :
    WaterSpecModel.runExchanges List.reverse WaterSpecModel.emptyWire rounds =
      (rounds.map fun r => r.1.reverse, rounds.map fun r => r.2.reverse,
        WaterSpecModel.emptyWire) :=
  runExchanges_from_empty List.reverse rounds

/-- Witness for C8: ten exchanges of "hello" (byte values) in each direction
are each observed as "olleh". -/
theorem c8_reverse_module_round_trip_witness :
    10 ≤ (List.replicate 10 ([104, 101, 108, 108, 111],
      [104, 101, 108, 108, 111]) : List (List Nat × List Nat)).length ∧
    WaterSpecModel.runExchanges List.reverse WaterSpecModel.emptyWire
      (List.replicate 10 ([104, 101, 108, 108, 111], [104, 101, 108, 108, 111])) =
      ((List.replicate 10 ([104, 101, 108, 108, 111],
          [104, 101, 108, 108, 111]) : List (List Nat × List Nat)).map
          fun r => r.1.reverse,
        (List.replicate 10 ([104, 101, 108, 108, 111],
          [104, 101, 108, 108, 111]) : List (List Nat × List Nat)).map
          fun r => r.2.reverse,
        WaterSpecModel.emptyWire) :=
  ⟨by decide,
    c8_reverse_module_round_trip
      (List.replicate 10 ([104, 101, 108, 108, 111], [104, 101, 108, 108, 111]))
      (by decide)⟩
